import Mathlib

/-!
Verification of the project materializer of `create-web3-sdk`.

The repository scaffolds a Web3 SDK starter project: given a project name
and an options record it deterministically renders a fixed set of
configuration files and templates, writes them into a freshly created
directory, and shells out to `git init` and `bun install`.

We shallowly embed the content-producing logic of the two `create`
variants found in the repository (`src/create.ts`, the one wired to the
CLI entry point, and the second unnamed variant) as pure Lean functions:
JavaScript object literals become a `Json` inductive, `JSON.stringify(x,
null, 2)` becomes `stringify`, template literals become string
concatenations, and the sequence of `mkdir` / `writeFile` / `execSync`
side effects becomes an explicit event trace.
-/

namespace CreateWeb3SDK

/-- JSON values as produced by the JavaScript object literals in
`create.ts`.  Only the constructors actually used by the source appear. -/
inductive Json where
  | str (s : String)
  | bool (b : Bool)
  | num (n : Nat)
  | arr (items : List Json)
  | obj (fields : List (String × Json))

/-- Escape of a single character inside a JSON string literal, as
performed by `JSON.stringify`. Only the escapes that can occur in the
repository's data are implemented. -/
def escapeChar (c : Char) : String :=
  if c = '"' then "\\\""
  else if c = '\\' then "\\\\"
  else if c = '\n' then "\\n"
  else String.singleton c

/-- Quoted JSON string literal. -/
def jsonQuote (s : String) : String :=
  "\"" ++ String.join (s.data.map escapeChar) ++ "\""

/-- Indentation of `n` spaces. -/
def spaces (n : Nat) : String :=
  String.mk (List.replicate n ' ')

mutual

/-- Rendering of a JSON value exactly as `JSON.stringify(value, null, 2)`
does: two-space indentation, `": "` after keys, and `\x7b\x7d` / `[]` for the
empty object and array. `ind` is the indentation of the surrounding
context. -/
def stringify (ind : Nat) : Json → String
  | .str s => jsonQuote s
  | .bool b => cond b "true" "false"
  | .num n => toString n
  | .arr xs =>
    if xs.isEmpty then "[]"
    else "[\n" ++ stringifyItems (ind + 2) xs ++ "\n" ++ spaces ind ++ "]"
  | .obj fs =>
    if fs.isEmpty then "\x7b\x7d"
    else "\x7b\n" ++ stringifyFields (ind + 2) fs ++ "\n" ++ spaces ind ++ "\x7d"

/-- Comma-and-newline separated array items, each on its own indented line. -/
def stringifyItems (ind : Nat) : List Json → String
  | [] => ""
  | [x] => spaces ind ++ stringify ind x
  | x :: y :: rest =>
    spaces ind ++ stringify ind x ++ ",\n" ++ stringifyItems ind (y :: rest)

/-- Comma-and-newline separated object fields, each on its own indented line. -/
def stringifyFields (ind : Nat) : List (String × Json) → String
  | [] => ""
  | [(k, v)] => spaces ind ++ jsonQuote k ++ ": " ++ stringify ind v
  | (k, v) :: y :: rest =>
    spaces ind ++ jsonQuote k ++ ": " ++ stringify ind v ++ ",\n" ++
      stringifyFields ind (y :: rest)

end

/-- Keys of a JSON object field list. -/
def keysOf (fs : List (String × Json)) : List String :=
  fs.map Prod.fst

/-- Removal of the field named `k` (JavaScript object field deletion used
to compare objects "up to" a key). -/
def eraseKey (k : String) (fs : List (String × Json)) : List (String × Json) :=
  fs.filter (fun p => !(p.1 == k))

/-- JavaScript object-spread update: `setKey fs k v` replaces the value of
`k` in place when the key is present, and appends the binding otherwise;
this is the semantics of `\x7b ...a, k: v \x7d`. -/
def setKey (fs : List (String × Json)) (k : String) (v : Json) :
    List (String × Json) :=
  if fs.any (fun p => p.1 == k) then
    fs.map (fun p => if p.1 == k then (k, v) else p)
  else fs ++ [(k, v)]

/-- JavaScript object spread `\x7b ...a, ...b \x7d`: fields of `b` override
fields of `a` in place, new fields are appended in order. -/
def objMerge (a b : List (String × Json)) : List (String × Json) :=
  b.foldl (fun acc p => setKey acc p.1 p.2) a

/-- Options record of `src/create.ts`: `typescript`, `git`, and the
optional `typechain` flag (an absent flag behaves as `false`, which is how
the JavaScript truthiness tests read it). -/
structure CreateOptions where
  typescript : Bool
  git : Bool
  typechain : Bool

/-- Options record of the second `create` variant, which has no
`typechain` flag. -/
structure CreateOptionsV2 where
  typescript : Bool
  git : Bool

/-- Compiler options of the module-level `tsConfig` constant. -/
def tsConfigCompilerOptions : List (String × Json) :=
  [("target", .str "ES2020"),
   ("module", .str "ESNext"),
   ("moduleResolution", .str "node"),
   ("declaration", .bool true),
   ("strict", .bool true),
   ("esModuleInterop", .bool true),
   ("skipLibCheck", .bool true),
   ("forceConsistentCasingInFileNames", .bool true),
   ("outDir", .str "./dist")]

/-- The module-level `tsConfig` constant of `create.ts`. -/
def tsConfigFields : List (String × Json) :=
  [("compilerOptions", .obj tsConfigCompilerOptions),
   ("include", .arr [.str "src"]),
   ("exclude", .arr [.str "node_modules", .str "dist", .str "**/*.test.ts"])]

/-- Object written to `tsconfig/base.json`: the spread
`\x7b ...tsConfig, compilerOptions: \x7b ...tsConfig.compilerOptions, rootDir,
outDir \x7d, include, exclude \x7d`. -/
def tsconfigBaseFields : List (String × Json) :=
  objMerge tsConfigFields
    [("compilerOptions", .obj (objMerge tsConfigCompilerOptions
        [("rootDir", .str "../src"), ("outDir", .str "../dist")])),
     ("include", .arr [.str "../src/**/*"]),
     ("exclude", .arr [.str "../node_modules", .str "../dist",
                       .str "../**/*.test.ts"])]

/-- Compiler options of the object written to `tsconfig/esm.json`. -/
def esmCompilerOptions : List (String × Json) :=
  [("outDir", .str "../dist/esm")]

/-- Object written to `tsconfig/esm.json`. -/
def tsconfigEsmFields : List (String × Json) :=
  [("extends", .str "../tsconfig/base.json"),
   ("compilerOptions", .obj esmCompilerOptions)]

/-- Compiler options of the object written to `tsconfig/cjs.json`. -/
def cjsCompilerOptions : List (String × Json) :=
  [("module", .str "CommonJS"),
   ("outDir", .str "../dist/cjs")]

/-- Object written to `tsconfig/cjs.json`. -/
def tsconfigCjsFields : List (String × Json) :=
  [("extends", .str "../tsconfig/base.json"),
   ("compilerOptions", .obj cjsCompilerOptions)]

/-- Compiler options of the object written to `tsconfig/types.json`. -/
def typesCompilerOptions : List (String × Json) :=
  [("emitDeclarationOnly", .bool true),
   ("outDir", .str "../dist/types")]

/-- Object written to `tsconfig/types.json`. -/
def tsconfigTypesFields : List (String × Json) :=
  [("extends", .str "../tsconfig/base.json"),
   ("compilerOptions", .obj typesCompilerOptions)]

/-- Object written to the top-level `tsconfig.json`. -/
def tsconfigRootFields : List (String × Json) :=
  [("extends", .str "./tsconfig/base.json")]

/-- The `build` pipeline shared by both branches of the `build` script
ternary in `packageJson`. -/
def buildPipeline : String :=
  "rimraf dist && bun run build:esm && bun run build:cjs && bun run build:types"

/-- The `scripts` map of the `packageJson` function.  The conditional
spread `...(options.typechain && \x7b "build:typechain": ... \x7d)` sits between
`build:types` and `docs`; with a falsy flag it contributes nothing. -/
def pkgScripts (options : CreateOptions) : List (String × Json) :=
  [("build", .str (cond options.typechain
      "rimraf dist && bun run build:esm && bun run build:cjs && bun run build:types && bun run build:typechain"
      "rimraf dist && bun run build:esm && bun run build:cjs && bun run build:types")),
   ("build:esm", .str "tsc -p tsconfig/esm.json"),
   ("build:cjs", .str "tsc -p tsconfig/cjs.json"),
   ("build:types", .str "tsc -p tsconfig/types.json")]
  ++ (if options.typechain then
        [("build:typechain",
          .str "typechain --target=ethers-v6 --out-dir typechain/contracts \x27./abis/**/*.json\x27")]
      else [])
  ++ [("docs", .str "typedoc"),
      ("docs:watch", .str "typedoc --watch"),
      ("format", .str "biome format --write ./src"),
      ("lint", .str "biome lint ./src"),
      ("check", .str "biome check ./src"),
      ("test", .str "vitest"),
      ("prepare", .str "bun run build")]

/-- The `dependencies` map of `packageJson`. -/
def pkgDependencies (options : CreateOptions) : List (String × Json) :=
  [("viem", .str "^2.22.12")]
  ++ (if options.typechain then [("ethers", .str "^6.0.0")] else [])

/-- The `devDependencies` map of `packageJson`. -/
def pkgDevDependencies (options : CreateOptions) : List (String × Json) :=
  [("@biomejs/biome", .str "1.5.3"),
   ("rimraf", .str "^5.0.0"),
   ("typedoc", .str "^0.25.0"),
   ("typescript", .str "^5.7.0"),
   ("vitest", .str "^3.0.0")]
  ++ (if options.typechain then
        [("@typechain/ethers-v6", .str "^0.5.0"),
         ("typechain", .str "^8.3.0")]
      else [])

/-- The `packageJson` arrow function of `src/create.ts`. -/
def packageJsonFields (projectName : String) (options : CreateOptions) :
    List (String × Json) :=
  [("name", .str projectName),
   ("version", .str "0.1.0"),
   ("type", .str "module"),
   ("main", .str "./dist/cjs/index.js"),
   ("module", .str "./dist/esm/index.js"),
   ("types", .str "./dist/types/index.d.ts"),
   ("exports", .obj
     [(".", .obj
       [("import", .str "./dist/esm/index.js"),
        ("require", .str "./dist/cjs/index.js"),
        ("types", .str "./dist/types/index.d.ts")])]),
   ("scripts", .obj (pkgScripts options)),
   ("dependencies", .obj (pkgDependencies options)),
   ("devDependencies", .obj (pkgDevDependencies options)),
   ("peerDependencies", .obj [("typescript", .str "^5.0.0")])]

/-- The `packageJson` arrow function of the second `create` variant (no
conditional blocks; a fixed fork/test tool chain and changesets scripts). -/
def packageJsonV2Fields (projectName : String) : List (String × Json) :=
  [("name", .str projectName),
   ("version", .str "0.1.0"),
   ("type", .str "module"),
   ("main", .str "./dist/cjs/index.js"),
   ("module", .str "./dist/esm/index.js"),
   ("types", .str "./dist/types/index.d.ts"),
   ("exports", .obj
     [(".", .obj
       [("types", .str "./dist/types/index.d.ts"),
        ("import", .str "./dist/esm/index.js"),
        ("require", .str "./dist/cjs/index.js")])]),
   ("scripts", .obj
     [("build", .str "rimraf dist && bun run build:esm && bun run build:cjs && bun run build:types"),
      ("build:esm", .str "tsc -p tsconfig/esm.json"),
      ("build:cjs", .str "tsc -p tsconfig/cjs.json"),
      ("build:types", .str "tsc -p tsconfig/types.json"),
      ("docs", .str "typedoc"),
      ("docs:watch", .str "typedoc --watch"),
      ("format", .str "biome format --write ./src"),
      ("lint", .str "biome lint ./src"),
      ("check", .str "biome check ./src"),
      ("fork:base-sepolia", .str "anvil --fork-url https://sepolia.base.org -vvvv"),
      ("test", .str "concurrently \"bun run fork:base-sepolia\" \"wait-on tcp:8545 && vitest\" \"kill -9 $(lsof -t -i:8545)\""),
      ("prepare", .str "bun run build"),
      ("changeset", .str "changeset"),
      ("version", .str "changeset version"),
      ("release", .str "npm run build && changeset publish --access public")]),
   ("dependencies", .obj [("viem", .str "^2.22.12")]),
   ("devDependencies", .obj
     [("@biomejs/biome", .str "1.5.3"),
      ("@changesets/cli", .str "^2.27.11"),
      ("rimraf", .str "^5.0.0"),
      ("typedoc", .str "^0.25.0"),
      ("typescript", .str "^5.7.0"),
      ("vitest", .str "^3.0.0"),
      ("concurrently", .str "^8.2.2"),
      ("wait-on", .str "^7.2.0"),
      ("@viem/anvil", .str "^0.0.10")]),
   ("peerDependencies", .obj [("typescript", .str "^5.0.0")])]

/-- Object written to `typedoc.json` (identical in both variants). -/
def typedocFields : List (String × Json) :=
  [("$schema", .str "https://typedoc.org/schema.json"),
   ("entryPoints", .arr [.str "src/index.ts"]),
   ("exclude", .arr [.str "src/test/**/*.ts"]),
   ("basePath", .str "src/"),
   ("includes", .str "src/"),
   ("out", .str "docs"),
   ("gitRevision", .str "main")]

/-- Object written to `biome.json` (identical in both variants). -/
def biomeFields : List (String × Json) :=
  [("$schema", .str "https://biomejs.dev/schemas/1.5.3/schema.json"),
   ("organizeImports", .obj [("enabled", .bool false)]),
   ("linter", .obj
     [("enabled", .bool true),
      ("rules", .obj
        [("recommended", .bool true),
         ("suspicious", .obj [("noConsoleLog", .str "off")]),
         ("style", .obj
           [("noNonNullAssertion", .str "off"),
            ("useShorthandArrayType", .str "off"),
            ("noUselessElse", .str "off"),
            ("noUnusedTemplateLiteral", .str "off"),
            ("useSingleVarDeclarator", .str "off"),
            ("noParameterAssign", .str "off"),
            ("useTemplate", .str "off"),
            ("noShoutyConstants", .str "off")])])]),
   ("formatter", .obj
     [("enabled", .bool true),
      ("formatWithErrors", .bool false),
      ("indentStyle", .str "space"),
      ("indentWidth", .num 2),
      ("lineWidth", .num 80)]),
   ("files", .obj
     [("ignore", .arr [.str "dist/**/*", .str "node_modules/**/*"])])]

/-- Object written to `abis/ERC20.json` when the typechain flag is on. -/
def erc20AbiFields : List (String × Json) :=
  [("name", .str "ERC20"),
   ("abi", .arr
     [.obj
       [("inputs", .arr
         [.obj [("internalType", .str "string"), ("name", .str "name_"),
                ("type", .str "string")],
          .obj [("internalType", .str "string"), ("name", .str "symbol_"),
                ("type", .str "string")]]),
        ("stateMutability", .str "nonpayable"),
        ("type", .str "constructor")],
      .obj
       [("inputs", .arr
         [.obj [("internalType", .str "address"), ("name", .str "owner"),
                ("type", .str "address")],
          .obj [("internalType", .str "address"), ("name", .str "spender"),
                ("type", .str "address")]]),
        ("name", .str "allowance"),
        ("outputs", .arr
         [.obj [("internalType", .str "uint256"), ("name", .str ""),
                ("type", .str "uint256")]]),
        ("stateMutability", .str "view"),
        ("type", .str "function")]])]

/-- Object written to `.changeset/config.json` by the second variant. -/
def changesetConfigFields : List (String × Json) :=
  [("$schema", .str "https://unpkg.com/@changesets/config@2.3.1/schema.json"),
   ("changelog", .str "@changesets/cli/changelog"),
   ("commit", .bool false),
   ("fixed", .arr []),
   ("linked", .arr []),
   ("access", .str "public"),
   ("baseBranch", .str "main"),
   ("updateInternalDependencies", .str "patch"),
   ("ignore", .arr [])]

/-- Content of `src/index.ts` (the example SDK source template). -/
def srcIndexContent : String := "\nimport \x7b createPublicClient, http \x7d from \x27viem\x27\nimport \x7b mainnet \x7d from \x27viem/chains\x27\nimport type \x7b Address \x7d from \x27viem\x27\n\n/**\n * Configuration options for the SDK\n * @property rpcUrl - The RPC URL for the Ethereum node\n * @property chain - The chain configuration (defaults to mainnet)\n */\nexport interface SDKConfig \x7b\n  rpcUrl: string\n  chain?: typeof mainnet\n\x7d\n\n/**\n * Creates a new SDK instance\n * @param config - The SDK configuration\n * @returns An object containing SDK methods\n * \n * @example\n * ```ts\n * const sdk = main(\x7b\n *   rpcUrl: \x27https://eth-mainnet.g.alchemy.com/v2/your-api-key\x27\n * \x7d)\n * \n * const blockNumber = await sdk.getBlockNumber()\n * ```\n */\nexport function main(config: SDKConfig) \x7b\n  const client = createPublicClient(\x7b\n    chain: config.chain ?? mainnet,\n    transport: http(config.rpcUrl)\n  \x7d)\n\n  return \x7b\n    /**\n     * Gets the current block number\n     * @returns The current block number\n     */\n    getBlockNumber: async () => \x7b\n      return client.getBlockNumber()\n    \x7d,\n\n    /**\n     * Gets the balance of an address\n     * @param address - The Ethereum address to get the balance for\n     * @returns The balance in wei\n     */\n    getBalance: async (address: Address) => \x7b\n      return client.getBalance(\x7b address \x7d)\n    \x7d,\n\n    // Add more functions as needed...\n  \x7d\n\x7d\n"

/-- Content of `test/sdk.test.ts` (the example test template). -/
def testFileContent : String := "\nimport \x7b describe, it, expect \x7d from \x27vitest\x27\nimport \x7b main \x7d from \x27../src\x27\nimport \x7b mainnet \x7d from \x27viem/chains\x27\n\ndescribe(\x27SDK\x27, () => \x7b\n  const sdk = main(\x7b\n    rpcUrl: \x27https://eth-mainnet.g.alchemy.com/v2/your-api-key\x27,\n    chain: mainnet\n  \x7d)\n\n  it(\x27should be defined\x27, () => \x7b\n    expect(sdk).toBeDefined()\n    expect(sdk.getBlockNumber).toBeDefined()\n    expect(sdk.getBalance).toBeDefined()\n  \x7d)\n\x7d)\n"

/-- README segment between the interpolated title and the conditional typechain section. -/
def readmeMid : String := "\n\n## Installation\n\nUsing bun (recommended):\n```bash\nbunx create-web3-sdk my-sdk\n```\n\nUsing npm:\n```bash\nnpx create-web3-sdk my-sdk\n```\n\n## Development\n\n"

/-- README section included only when the typechain flag is on. -/
def readmeTypechainSection : String := "### Smart Contract Types\n\n1. Add your contract ABIs to the `abis` directory\n2. Run `bun run build:typechain` to generate TypeScript types\n3. Import and use the generated types in your SDK\n\n"

/-- README segment opening the Scripts list. -/
def readmeScriptsHead : String := "## Scripts\n\n- `bun run build` - Build the SDK"

/-- README bullet included only when the typechain flag is on. -/
def readmeTypechainBullet : String := "- `bun run build:typechain` - Generate TypeScript types from ABIs\n"

/-- README closing bullets. -/
def readmeScriptsTail : String := "- `bun run test` - Run tests\n- `bun run check` - Format and lint code\n"

/-- Content of `.env.example` in the second variant. -/
def envExampleContent : String := "\n# Required for testing token transfers\nTESTING_PRIVATE_KEY=your_private_key_here\n\n# Optional: Override default RPC URL\nRPC_URL=your_rpc_url_here\n"

/-- Content of `src/index.ts` in the second variant (`sdkContent`). -/
def sdkContentV2 : String := "\n// Implement SDK\n"

/-- Content of `test/config/test.config.ts` in the second variant. -/
def testConfigContent : String := "\nimport \x7b createTestClient, defineChain, http, publicActions, walletActions \x7d from \x27viem\x27\n\nexport const ANVIL_RPC_URL = \x27http://127.0.0.1:8545\x27\n\nexport const testChain = defineChain(\x7b\n  id: 84532,\n  name: \x27Base Sepolia Fork\x27,\n  nativeCurrency: \x7b\n    decimals: 18,\n    name: \x27Ether\x27,\n    symbol: \x27ETH\x27,\n  \x7d,\n  rpcUrls: \x7b\n    default: \x7b\n      http: [ANVIL_RPC_URL],\n    \x7d,\n  \x7d,\n  blockExplorers: \x7b\n    default: \x7b name: \x27Explorer\x27, url: \x27https://sepolia.basescan.org\x27 \x7d,\n  \x7d,\n\x7d)\n\nexport const testClient = createTestClient(\x7b\n  chain: testChain,\n  mode: \x27anvil\x27,\n  transport: http(ANVIL_RPC_URL),\n\x7d)\n  .extend(walletActions)\n  .extend(publicActions)\n\n// Anvil\x27s first test account - has 10000 ETH\nexport const TEST_ACCOUNT = \x7b\n  address: \x270xf39Fd6e51aad88F6F4ce6aB8827279cffFb92266\x27,\n  privateKey: \x270xac0974bec39a17e36ba4a6b4d238ff944bacb478cbed5efcae784d7bf4f2ff80\x27\n\x7d as const\n"

/-- Content of `test/config/test.utils.ts` in the second variant. -/
def testUtilsContent : String := "\nimport \x7b createWalletClient, http, parseEther, type Address \x7d from \x27viem\x27\nimport \x7b privateKeyToAccount \x7d from \x27viem/accounts\x27\nimport \x7b testChain, TEST_ACCOUNT, testClient \x7d from \x27./test.config\x27\n\nexport async function fundAddress(address: Address, amount: string) \x7b\n  const account = privateKeyToAccount(TEST_ACCOUNT.privateKey)\n  const client = createWalletClient(\x7b\n    account,\n    chain: testChain,\n    transport: http()\n  \x7d)\n\n  const tx = await client.sendTransaction(\x7b\n    to: address,\n    value: parseEther(amount)\n  \x7d)\n\n  return tx\n\x7d\n\nexport async function getBalance(address: Address) \x7b\n  return testClient.getBalance(\x7b address \x7d)\n\x7d\n\nexport async function impersonateAccount(address: Address) \x7b\n  await testClient.impersonateAccount(\x7b address \x7d)\n\x7d\n"

/-- Content of `test/sdk.test.ts` in the second variant (`testFileContent`). -/
def testFileContentV2 : String := "\nimport \x7b describe, it, expect \x7d from \x27vitest\x27\nimport \x7b http, parseEther, createPublicClient \x7d from \x27viem\x27\nimport \x7b testChain, ANVIL_RPC_URL, testClient \x7d from \x27./config/test.config\x27\nimport \x7b fundAddress, getBalance, impersonateAccount \x7d from \x27./config/test.utils\x27\n\n// Vitalik\x27s address for impersonation test\nconst VITALIK = \x270xd8dA6BF26964aF9D7eEd9e03E53415D37aA96045\x27 as const\n\ndescribe(\x27SDK Example Tests\x27, () => \x7b\n  it(\x27should fund an address using utility function\x27, async () => \x7b\n    const recipient = \x270x70997970C51812dc3A010C7d01b50e0d17dc79C8\x27\n\n    // Fund the recipient using our utility function\n    const fundTx = await fundAddress(recipient, \x271.5\x27)\n\n    // Verify the transfer\n    const publicClient = createPublicClient(\x7b\n      transport: http(ANVIL_RPC_URL),\n      chain: testChain\n    \x7d)\n\n    const receipt = await publicClient.waitForTransactionReceipt(\x7b hash: fundTx \x7d)\n    expect(receipt.status).toBe(\x27success\x27)\n\n    const balance = await getBalance(recipient)\n    expect(balance >= parseEther(\x271.5\x27)).toBe(true)\n  \x7d)\n\n  it(\x27should impersonate Vitalik and send ETH\x27, async () => \x7b\n    const recipient = \x270x70997970C51812dc3A010C7d01b50e0d17dc79C8\x27\n\n    // Get initial balances\n    const initialBalance = await getBalance(recipient)\n\n    const vitalikBalance = await getBalance(VITALIK)\n    console.log(\x27Vitalik balance:\x27, vitalikBalance)\n\n    // Impersonate Vitalik\n    await impersonateAccount(VITALIK)\n\n    // Send 1 ETH from Vitalik\x27s account to the recipient\n    const txHash = await testClient.sendUnsignedTransaction(\x7b\n      from: VITALIK,\n      to: recipient,\n      value: parseEther(\x271\x27)\n    \x7d)\n\n    // Wait for transaction\n    const receipt = await testClient.waitForTransactionReceipt(\x7b hash: txHash \x7d)\n    expect(receipt.status).toBe(\x27success\x27)\n\n    // Verify the transfer\n    const finalBalance = await getBalance(recipient)\n    expect(finalBalance - initialBalance).toBe(parseEther(\x271\x27))\n\n    // Stop impersonating\n    await testClient.stopImpersonatingAccount(\x7b address: VITALIK \x7d)\n  \x7d)\n\x7d)"

/-- Second-variant README content after the interpolated title. -/
def readmeV2Tail : String := "\n\n## Installation\n\nUsing bun (recommended):\n```bash\nbunx create-web3-sdk my-sdk\n```\n\nUsing npm:\n```bash\nnpx create-web3-sdk my-sdk\n```\n\n## Development\n\n### Scripts\n\n- `bun run build` - Build the SDK\n- `bun run test` - Run tests against Base Sepolia\n- `bun run test:fork` - Run tests against local Anvil fork\n- `bun run fork:base-sepolia` - Start Anvil fork of Base Sepolia\n- `bun run check` - Format and lint code\n\n### Testing with Local Fork\n\nFor faster and more reliable tests, you can run them against a local Anvil fork:\n\n1. Install Anvil (comes with Foundry): https://book.getfoundry.sh/\n2. Run `bun run test:fork` - This will:\n   - Start an Anvil fork of Base Sepolia\n   - Wait for the fork to be ready\n   - Run the tests against the local fork\n\n### Versioning and Changelog\n\nThis project uses [changesets](https://github.com/changesets/changesets) for versioning and changelog generation.\n\n1. Make your changes\n2. Run `bun changeset` to create a new changeset\n3. Follow the prompts to describe your changes\n4. Commit the generated changeset file\n5. When ready to release:\n   - Run `bun run version` to update versions and changelog\n   - Run `bun run release` to publish to npm\n"

/-- Content of `README.md` in `src/create.ts`: a template literal with
`projectName` interpolated immediately after `"# "` and three conditional
pieces governed by `options.typechain`; the install examples are part of
the fixed text. -/
def readmeContent (projectName : String) (tc : Bool) : String :=
  "\n# " ++ projectName ++ readmeMid ++
  (if tc then readmeTypechainSection else "") ++
  readmeScriptsHead ++
  (if tc then " (includes contract types)" else "") ++ "\n" ++
  (if tc then readmeTypechainBullet else "") ++
  readmeScriptsTail

/-- Everything of the generated README after the interpolated project
name, assembled from the same segments as `readmeContent`. -/
def readmeTail (tc : Bool) : String :=
  readmeMid ++
  ((if tc then readmeTypechainSection else "") ++
   (readmeScriptsHead ++
    ((if tc then " (includes contract types)" else "") ++
     ("\n" ++
      ((if tc then readmeTypechainBullet else "") ++ readmeScriptsTail)))))

/-- Content of `.gitignore` in `src/create.ts`: fixed patterns plus one
extra line when the typechain flag is on. -/
def gitignoreContent (tc : Bool) : String :=
  "\nnode_modules\ndist\ndocs\n.env\n" ++
  (if tc then "typechain/contracts" else "") ++ "\n"

/-- Content of `.gitignore` in the second variant. -/
def gitignoreContentV2 : String :=
  "\nnode_modules\ndist\ndocs\n.env\n"

/-- One observable side effect of `create`, in program order: a
`mkdir`, a `writeFile` (relative path and exact content), or an
`execSync` of an external command. -/
inductive Event where
  | mkdirDir (path : String)
  | write (path : String) (content : String)
  | exec (cmd : String)
deriving DecidableEq

/-- Relative paths of the files written in a trace. -/
def filePaths (evs : List Event) : List String :=
  evs.filterMap (fun e => match e with
    | .write p _ => some p
    | _ => none)

/-- External commands invoked in a trace. -/
def execCmds (evs : List Event) : List String :=
  evs.filterMap (fun e => match e with
    | .exec c => some c
    | _ => none)

/-- Directories created in a trace. -/
def madeDirs (evs : List Event) : List String :=
  evs.filterMap (fun e => match e with
    | .mkdirDir p => some p
    | _ => none)

/-- The ordered side effects of `create` in `src/create.ts` after the
project directory has been created and entered: directory creations, file
writes (relative to the project root, with exact contents), and the two
external commands. -/
def createEvents (projectName : String) (options : CreateOptions) :
    List Event :=
  [.mkdirDir "src", .mkdirDir "test", .mkdirDir "tsconfig",
   .write "tsconfig/base.json" (stringify 0 (.obj tsconfigBaseFields)),
   .write "tsconfig/esm.json" (stringify 0 (.obj tsconfigEsmFields)),
   .write "tsconfig/cjs.json" (stringify 0 (.obj tsconfigCjsFields)),
   .write "tsconfig/types.json" (stringify 0 (.obj tsconfigTypesFields)),
   .write "tsconfig.json" (stringify 0 (.obj tsconfigRootFields)),
   .write "package.json"
     (stringify 0 (.obj (packageJsonFields projectName options))),
   .write "typedoc.json" (stringify 0 (.obj typedocFields)),
   .write "biome.json" (stringify 0 (.obj biomeFields)),
   .write "src/index.ts" srcIndexContent,
   .write "test/sdk.test.ts" testFileContent]
  ++ (if options.typechain then
        [.mkdirDir "typechain", .mkdirDir "typechain/contracts",
         .mkdirDir "abis",
         .write "abis/ERC20.json" (stringify 0 (.obj erc20AbiFields))]
      else [])
  ++ [.write "README.md" (readmeContent projectName options.typechain)]
  ++ (if options.git then
        [.write ".gitignore" (gitignoreContent options.typechain)]
      else [])
  ++ (if options.git then [.exec "git init"] else [])
  ++ [.exec "bun install"]

/-- The ordered side effects of the second `create` variant after the
project directory has been created and entered. -/
def createV2Events (projectName : String) (options : CreateOptionsV2) :
    List Event :=
  [.mkdirDir "src", .mkdirDir "test", .mkdirDir "tsconfig",
   .write "tsconfig/base.json" (stringify 0 (.obj tsconfigBaseFields)),
   .write "tsconfig/esm.json" (stringify 0 (.obj tsconfigEsmFields)),
   .write "tsconfig/cjs.json" (stringify 0 (.obj tsconfigCjsFields)),
   .write "tsconfig/types.json" (stringify 0 (.obj tsconfigTypesFields)),
   .write "tsconfig.json" (stringify 0 (.obj tsconfigRootFields)),
   .write "package.json"
     (stringify 0 (.obj (packageJsonV2Fields projectName))),
   .write "typedoc.json" (stringify 0 (.obj typedocFields)),
   .write "biome.json" (stringify 0 (.obj biomeFields)),
   .write ".env.example" envExampleContent,
   .write "src/index.ts" sdkContentV2,
   .mkdirDir "test/config",
   .write "test/config/test.config.ts" testConfigContent,
   .write "test/config/test.utils.ts" testUtilsContent,
   .write "test/sdk.test.ts" testFileContentV2,
   .mkdirDir ".changeset",
   .write ".changeset/config.json"
     (stringify 0 (.obj changesetConfigFields)),
   .write "README.md" ("\n# " ++ projectName ++ readmeV2Tail)]
  ++ (if options.git then [.write ".gitignore" gitignoreContentV2] else [])
  ++ (if options.git then [.exec "git init"] else [])
  ++ [.exec "bun install"]

/-- Prior state of the process environment that `create` can observe: the
current working directory and which absolute paths are already occupied
by a file or directory (`mkdir` at such a path rejects). -/
structure World where
  cwd : String
  occupied : String → Bool

/-- Outcome of one `create` run: whether it reported success, and the
trace of side effects performed inside the project directory. -/
structure CreateResult where
  success : Bool
  events : List Event

/-- The `create` function of `src/create.ts`.  It computes
`join(process.cwd(), projectName)`, attempts `mkdir` there — which fails
when the path is already occupied, sending control to the `catch` block
before any file write or external command — and otherwise `chdir`s into
the new directory and performs `createEvents`. -/
def create (projectName : String) (options : CreateOptions) (w : World) :
    CreateResult :=
  let projectPath := w.cwd ++ "/" ++ projectName
  if w.occupied projectPath then
    CreateResult.mk false []
  else
    CreateResult.mk true (createEvents projectName options)

/-- Default options of the CLI front end: `--typescript` and `--git`
default to `true`, and no typechain flag is ever passed (contract
bindings off). -/
def defaultOptions : CreateOptions :=
  CreateOptions.mk true true false

/-- Whether `pat` occurs at the start of `text` (on character lists). -/
def listStartsWith : List Char → List Char → Bool
  | [], _ => true
  | _ :: _, [] => false
  | a :: as, b :: bs => a == b && listStartsWith as bs

/-- Whether `pat` occurs anywhere in `text` (on character lists). -/
def listOccurs (pat : List Char) : List Char → Bool
  | [] => listStartsWith pat []
  | c :: ts => listStartsWith pat (c :: ts) || listOccurs pat ts

/-- Whether the string `pat` occurs as a contiguous substring of `s`. -/
def strContains (s pat : String) : Bool :=
  listOccurs pat.data s.data

/-- Proper ancestor directories of a relative path: for
`"test/config/x.ts"` these are `"test"` and `"test/config"`; a bare file
name has none. -/
def parentDirsAux : List Char → List Char → List String
  | [], _ => []
  | c :: cs, acc =>
    if c = '/' then
      String.mk acc.reverse :: parentDirsAux cs (c :: acc)
    else
      parentDirsAux cs (c :: acc)

/-- Ancestor directories of a relative path. -/
def parentDirs (p : String) : List String :=
  parentDirsAux p.data []

/-- Scan of a trace checking that every file write is preceded by the
creation of every ancestor directory of its path. `made` accumulates the
directories created so far. -/
def checkDirsAux (made : List String) : List Event → Bool
  | [] => true
  | .mkdirDir d :: rest => checkDirsAux (d :: made) rest
  | .write p _ :: rest =>
    (parentDirs p).all (fun d => made.contains d) && checkDirsAux made rest
  | .exec _ :: rest => checkDirsAux made rest

/-- Every file write in the trace happens only after all ancestor
directories of its path have been created. -/
def checkDirs (evs : List Event) : Bool :=
  checkDirsAux [] evs

/-- Associativity of string concatenation, used to regroup the README
template around the interpolated project name. -/
theorem strAppendAssoc (a b c : String) : a ++ b ++ c = a ++ (b ++ c) :=
  congrArg String.mk (List.append_assoc a.data b.data c.data)

/-- Modelled from the spec: the exact file set the end-to-end scenario of
the specification claims for name `"sample-sdk"` with default options. -/
def specClaimedPathsC1 : List String :=
  ["tsconfig/base.json", "tsconfig/esm.json", "tsconfig/cjs.json",
   "tsconfig/types.json", "tsconfig.json", "package.json", "typedoc.json",
   "biome.json", "src/index.ts", "test/sdk.test.ts", "README.md",
   ".gitignore", ".changeset/config.json"]

/-- C1, counterexample: the claimed file set contains
`.changeset/config.json`, but the `create` of `src/create.ts` — the
variant the CLI entry point invokes — never writes that file for
`"sample-sdk"` with default options. -/
theorem claim1_counterexample :
    ".changeset/config.json" ∈ specClaimedPathsC1 ∧
    ".changeset/config.json" ∉ filePaths (createEvents "sample-sdk" defaultOptions) := by
  decide

/-- C1, amended: for project name `"sample-sdk"` with default options the
set of relative file paths produced by the materializer is exactly the
claimed set without `.changeset/config.json` (twelve files, in program
order), and the `name` field of the generated `package.json` equals
`"sample-sdk"`. -/
theorem claim1_amended :
    filePaths (createEvents "sample-sdk" defaultOptions) =
      ["tsconfig/base.json", "tsconfig/esm.json", "tsconfig/cjs.json",
       "tsconfig/types.json", "tsconfig.json", "package.json", "typedoc.json",
       "biome.json", "src/index.ts", "test/sdk.test.ts", "README.md",
       ".gitignore"] ∧
    List.lookup "name" (packageJsonFields "sample-sdk" defaultOptions) =
      some (Json.str "sample-sdk") := by
  exact ⟨by decide, rfl⟩

/-- C2, counterexample: the ESM and the types variant do not differ only
in their declared output directory — after removing `outDir` from both
compiler-option objects the types variant still carries
`emitDeclarationOnly`, so the two objects remain different. -/
theorem claim2_counterexample :
    List.lookup "extends" tsconfigEsmFields = List.lookup "extends" tsconfigTypesFields ∧
    keysOf (eraseKey "outDir" esmCompilerOptions) = [] ∧
    keysOf (eraseKey "outDir" typesCompilerOptions) = ["emitDeclarationOnly"] ∧
    eraseKey "outDir" typesCompilerOptions ≠ eraseKey "outDir" esmCompilerOptions := by
  refine ⟨rfl, by decide, by decide, fun h => ?_⟩
  exact absurd (congrArg keysOf h) (by decide)

/-- C2, amended: `tsconfig/esm.json`, `tsconfig/cjs.json` and
`tsconfig/types.json` each declare `../tsconfig/base.json` as their
extends base and consist of nothing but that `extends` key and a
`compilerOptions` object; the compiler options differ only in the
declared output directory, except that the CJS variant additionally
overrides the module format and the types variant additionally sets
`emitDeclarationOnly`; the top-level `tsconfig.json` only extends the
base. -/
theorem claim2_amended :
    List.lookup "extends" tsconfigEsmFields = some (Json.str "../tsconfig/base.json") ∧
    List.lookup "extends" tsconfigCjsFields = some (Json.str "../tsconfig/base.json") ∧
    List.lookup "extends" tsconfigTypesFields = some (Json.str "../tsconfig/base.json") ∧
    keysOf tsconfigEsmFields = ["extends", "compilerOptions"] ∧
    keysOf tsconfigCjsFields = ["extends", "compilerOptions"] ∧
    keysOf tsconfigTypesFields = ["extends", "compilerOptions"] ∧
    eraseKey "outDir" esmCompilerOptions = [] ∧
    eraseKey "outDir" (eraseKey "module" cjsCompilerOptions) = [] ∧
    eraseKey "outDir" (eraseKey "emitDeclarationOnly" typesCompilerOptions) = [] ∧
    List.lookup "outDir" esmCompilerOptions = some (Json.str "../dist/esm") ∧
    List.lookup "outDir" cjsCompilerOptions = some (Json.str "../dist/cjs") ∧
    List.lookup "outDir" typesCompilerOptions = some (Json.str "../dist/types") ∧
    List.lookup "module" cjsCompilerOptions = some (Json.str "CommonJS") ∧
    List.lookup "emitDeclarationOnly" typesCompilerOptions = some (Json.bool true) ∧
    tsconfigRootFields = [("extends", Json.str "./tsconfig/base.json")] :=
  ⟨rfl, rfl, rfl, rfl, rfl, rfl, rfl, rfl, rfl, rfl, rfl, rfl, rfl, rfl, rfl⟩

/-- C3: when the typechain flag is true the trace creates the
`typechain` directory and writes `abis/ERC20.json`, and the generated
scripts map has a `build:typechain` key; when the flag is false none of
the three is present — for every project name and every setting of the
other options. -/
theorem claim3_conditional_inclusion (name : String) (t g : Bool) :
    Event.mkdirDir "typechain" ∈ createEvents name (CreateOptions.mk t g true) ∧
    "abis/ERC20.json" ∈ filePaths (createEvents name (CreateOptions.mk t g true)) ∧
    "build:typechain" ∈ keysOf (pkgScripts (CreateOptions.mk t g true)) ∧
    Event.mkdirDir "typechain" ∉ createEvents name (CreateOptions.mk t g false) ∧
    "abis/ERC20.json" ∉ filePaths (createEvents name (CreateOptions.mk t g false)) ∧
    "build:typechain" ∉ keysOf (pkgScripts (CreateOptions.mk t g false)) := by
  cases t <;> cases g <;>
    exact ⟨by simp [createEvents], by simp [filePaths, createEvents],
           by decide, by simp [createEvents], by simp [filePaths, createEvents],
           by decide⟩

/-- C4: the generated `build` script is the fixed pipeline
`rimraf dist && build:esm && build:cjs && build:types` ("clean" then the
three compilations), with the `build:typechain` stage appended exactly
when the typechain flag is set; and every conditional script, dependency
and devDependency key gated by that flag is absent from the manifest
whenever the flag is false and present whenever it is true. -/
theorem claim4_build_script (t g : Bool) :
    buildPipeline = String.intercalate " && "
      ["rimraf dist", "bun run build:esm", "bun run build:cjs", "bun run build:types"] ∧
    List.lookup "build" (pkgScripts (CreateOptions.mk t g false)) =
      some (Json.str buildPipeline) ∧
    List.lookup "build" (pkgScripts (CreateOptions.mk t g true)) =
      some (Json.str (buildPipeline ++ " && bun run build:typechain")) ∧
    "build:typechain" ∉ keysOf (pkgScripts (CreateOptions.mk t g false)) ∧
    "ethers" ∉ keysOf (pkgDependencies (CreateOptions.mk t g false)) ∧
    "@typechain/ethers-v6" ∉ keysOf (pkgDevDependencies (CreateOptions.mk t g false)) ∧
    "typechain" ∉ keysOf (pkgDevDependencies (CreateOptions.mk t g false)) ∧
    "build:typechain" ∈ keysOf (pkgScripts (CreateOptions.mk t g true)) ∧
    "ethers" ∈ keysOf (pkgDependencies (CreateOptions.mk t g true)) ∧
    "@typechain/ethers-v6" ∈ keysOf (pkgDevDependencies (CreateOptions.mk t g true)) ∧
    "typechain" ∈ keysOf (pkgDevDependencies (CreateOptions.mk t g true)) := by
  cases t <;> cases g <;>
    exact ⟨rfl, rfl, rfl, by decide, by decide, by decide, by decide,
           by decide, by decide, by decide, by decide⟩

/-- C5: the `name` field of the generated `package.json` equals the
supplied project name exactly, with no normalization, for every supplied
name and every options record. -/
theorem claim5_manifest_name (name : String) (options : CreateOptions) :
    List.lookup "name" (packageJsonFields name options) = some (Json.str name) :=
  rfl

/-- C6: the content-producing part of generation is deterministic — two
runs of `create` on the same `(name, options)` pair, from any two prior
filesystem states in which the target directory creation succeeds,
produce identical event traces (the same relative paths with
byte-identical contents); the trace is a pure function of name and
options and depends on no other state. -/
theorem claim6_determinism (name : String) (options : CreateOptions)
    (w1 w2 : World)
    (h1 : (create name options w1).success = true)
    (h2 : (create name options w2).success = true) :
    (create name options w1).events = (create name options w2).events := by
  unfold create at *
  cases hocc1 : w1.occupied (w1.cwd ++ "/" ++ name) <;>
  cases hocc2 : w2.occupied (w2.cwd ++ "/" ++ name) <;>
    simp [hocc1, hocc2] at h1 h2 ⊢

/-- C6, witness: two concrete successful runs from different working
directories produce the same trace. -/
theorem claim6_witness :
    (create "sample-sdk" defaultOptions (World.mk "/home/user" (fun _ => false))).success = true ∧
    (create "sample-sdk" defaultOptions (World.mk "/tmp" (fun _ => false))).success = true ∧
    (create "sample-sdk" defaultOptions (World.mk "/home/user" (fun _ => false))).events =
      (create "sample-sdk" defaultOptions (World.mk "/tmp" (fun _ => false))).events :=
  ⟨rfl, rfl, claim6_determinism "sample-sdk" defaultOptions _ _ rfl rfl⟩

set_option maxRecDepth 100000 in
/-- C7, counterexample: for project name `"sample-sdk"` the generated
README interpolates the name at the title position, but the
install-example positions still read `create-web3-sdk my-sdk` — the
supplied name is not interpolated there. -/
theorem claim7_counterexample :
    strContains (readmeContent "sample-sdk" false) "# sample-sdk" = true ∧
    strContains (readmeContent "sample-sdk" false) "bunx create-web3-sdk my-sdk" = true ∧
    strContains (readmeContent "sample-sdk" false) "create-web3-sdk sample-sdk" = false := by
  exact ⟨by decide, by decide, by decide⟩

set_option maxRecDepth 100000 in
/-- C7, amended: the generated README is a fixed template in which the
supplied project name is interpolated only at the title position; the
install-example positions carry the fixed literal `my-sdk`, and the
typechain body section is included exactly when the contract-bindings
flag is set. -/
theorem claim7_amended (name : String) (tc : Bool) :
    readmeContent name tc = "\n# " ++ name ++ readmeTail tc ∧
    strContains (readmeTail tc) "bunx create-web3-sdk my-sdk" = true ∧
    strContains (readmeTail tc) "### Smart Contract Types" = tc := by
  cases tc <;> refine ⟨?_, by decide, by decide⟩ <;>
    (simp [readmeContent, readmeTail, strAppendAssoc]; try rfl)

/-- C8: if creating the target project directory fails because the path
is already occupied, `create` reports failure, performs zero file writes
and invokes no external process. -/
theorem claim8_failure_no_writes (name : String) (options : CreateOptions)
    (w : World) (h : w.occupied (w.cwd ++ "/" ++ name) = true) :
    (create name options w).success = false ∧
    filePaths (create name options w).events = [] ∧
    execCmds (create name options w).events = [] := by
  simp [create, h, filePaths, execCmds]

/-- C8, witness: a concrete world in which the target path is occupied. -/
theorem claim8_witness :
    (World.mk "/home/user" (fun _ => true)).occupied
      ("/home/user" ++ "/" ++ "sample-sdk") = true ∧
    ((create "sample-sdk" defaultOptions (World.mk "/home/user" (fun _ => true))).success = false ∧
     filePaths (create "sample-sdk" defaultOptions (World.mk "/home/user" (fun _ => true))).events = [] ∧
     execCmds (create "sample-sdk" defaultOptions (World.mk "/home/user" (fun _ => true))).events = []) :=
  ⟨rfl, claim8_failure_no_writes "sample-sdk" defaultOptions
    (World.mk "/home/user" (fun _ => true)) rfl⟩

/-- C9: in both `create` variants, every file write whose relative path
lies in a subdirectory happens only after the creation of every ancestor
directory of that path, for every project name and option setting. -/
theorem claim9_dirs_before_writes (name : String) (t g tc t2 g2 : Bool) :
    checkDirs (createEvents name (CreateOptions.mk t g tc)) = true ∧
    checkDirs (createV2Events name (CreateOptionsV2.mk t2 g2)) = true := by
  cases g <;> cases tc <;> cases g2 <;> exact ⟨rfl, rfl⟩

/-- C10: the typescript option has no effect on the output — for every
project name, every setting of the git and typechain options, and every
prior filesystem state, the result of `create` is identical whether the
typescript flag is true or false. -/
theorem claim10_typescript_no_effect (name : String) (g tc : Bool) (w : World) :
    create name (CreateOptions.mk true g tc) w =
      create name (CreateOptions.mk false g tc) w :=
  rfl

end CreateWeb3SDK
